import Mathlib

/-!
Verification of the MVN streaming-protocol core (header codec, fragment
reassembly tracker, payload decoders, dispatch sink) against its
natural-language specification.

Modelling conventions for the shallow embedding:
* byte buffers are `List Nat` with every element a byte value (0..255);
* Python `struct.unpack` of big-endian fields is `readBE` (every call site
  in the source is guarded by an explicit length validation, so reading
  with a default of 0 past the end is unreachable and the two agree);
* IEEE-754 float fields are kept as their raw 32-bit big-endian words:
  no claim in scope compares decoded float values, only identifiers,
  names, errors and byte-level payload contents;
* Python `dict` becomes an association list with insert-or-replace
  (`dinsert` / `ainsert`), preserving Python's insertion order;
* the exception hierarchy becomes the `MVNErr` variant type; a fallible
  operation returns `Except MVNErr`.
-/

/-- Big-endian read of `len` bytes of `data` starting at `off`
(`struct.unpack('>I', data[off:off+len])` and friends; all call sites in
the source validate the length first, so the `getD` default is never
reached on the inputs the source can see). -/
def readBE (data : List Nat) (off : Nat) : Nat → Nat
  | 0 => 0
  | n + 1 => readBE data off n * 256 + data.getD (off + n) 0

/-- Big-endian 4-byte image of a 32-bit value (wire layout of `>I`). -/
def beBytes4 (v : Nat) : List Nat :=
  [v / 16777216 % 256, v / 65536 % 256, v / 256 % 256, v % 256]

/-- Big-endian 2-byte image of a 16-bit value (wire layout of `>H`). -/
def beBytes2 (v : Nat) : List Nat :=
  [v / 256 % 256, v % 256]

/-- The byte values of a Lean string (ASCII content only in this file). -/
def strBytes (s : String) : List Nat :=
  s.toList.map Char.toNat

/-- The error taxonomy of `mvn_exceptions.py`, as a variant type.
`parseError` is `MVNParseError(data_type, position)`, `protocolError` is
`MVNProtocolError(protocol_type)`, `datagramError` is
`MVNDatagramError(message, datagram_counter, sample_counter)`,
`segmentError` is `MVNSegmentError(message, segment_id)`; `pyTypeErr`
stands for the `TypeError` that `b''.join` raises on a `None` entry
(not an `MVNError`, but caught by the receive loop's generic handler). -/
inductive MVNErr where
  | parseError (dataType : String) (position : Option Nat)
  | protocolError (protocolType : String)
  | datagramError (msg : String) (datagramCounter sampleCounter : Nat)
  | segmentError (msg : String) (segmentId : Nat)
  | pyTypeErr
deriving DecidableEq, Repr

/-- `MVNHeader` of `mvn_types.py`: the decoded 24-byte header.
`id_string` is the 6 decoded ASCII bytes. -/
structure MVNHeader where
  id_string : List Nat
  sample_counter : Nat
  datagram_counter : Nat
  num_items : Nat
  time_code : Nat
  character_id : Nat
  num_segments : Nat
  num_props : Nat
  num_fingers : Nat
  payload_size : Nat
deriving DecidableEq, Repr

/-- The four protocol-identifier bytes `b'MXTP'`. -/
def mxtpBytes : List Nat := [77, 88, 84, 80]

/-- `MVNParser.parse_header` (mvn_parser.py lines 50-107): validate that 24
bytes are available (`MVNParseError` of data type "header" at position 0
otherwise), decode bytes 0-5 as ASCII (failure is caught and re-raised as an
`MVNParseError` of data type "header" with no position), require the `MXTP`
prefix (`MVNProtocolError` for protocol "MVN" otherwise), then read the
fixed big-endian fields and report 24 bytes consumed. -/
def parse_header (data : List Nat) : Except MVNErr (MVNHeader × Nat) :=
  if data.length < 24 then
    .error (.parseError "header" (some 0))
  else if !((data.take 6).all fun b => decide (b < 128)) then
    .error (.parseError "header" none)
  else if data.take 4 ≠ mxtpBytes then
    .error (.protocolError "MVN")
  else
    .ok ({ id_string := data.take 6
           sample_counter := readBE data 6 4
           datagram_counter := data.getD 10 0
           num_items := data.getD 11 0
           time_code := readBE data 12 4
           character_id := data.getD 16 0
           num_segments := data.getD 17 0
           num_props := data.getD 18 0
           num_fingers := data.getD 19 0
           payload_size := readBE data 22 2 }, 24)

/-- Modelled from the spec: the 24-byte wire image of a header (spec section 6,
"Wire format"). The source repository has no encoder, so the round-trip
property of spec section 8 is stated against this layout: bytes 0-5 id string,
6-9 sample counter (u32), 10 fragment control, 11 item count, 12-15 time code
(u32), 16 character id, 17-19 segment/prop/finger counts, 20-21 reserved
(zero), 22-23 payload size (u16), all big-endian. -/
def encode_header (h : MVNHeader) : List Nat :=
  h.id_string ++ beBytes4 h.sample_counter ++
    [h.datagram_counter, h.num_items] ++ beBytes4 h.time_code ++
    [h.character_id, h.num_segments, h.num_props, h.num_fingers, 0, 0] ++
    beBytes2 h.payload_size

/-- A header whose fields fit the wire layout of spec section 6. -/
def MVNHeader.wellformed (h : MVNHeader) : Prop :=
  h.id_string.length = 6 ∧ (∀ b ∈ h.id_string, b < 128) ∧
  h.id_string.take 4 = mxtpBytes ∧
  h.sample_counter < 4294967296 ∧ h.datagram_counter < 256 ∧
  h.num_items < 256 ∧ h.time_code < 4294967296 ∧ h.character_id < 256 ∧
  h.num_segments < 256 ∧ h.num_props < 256 ∧ h.num_fingers < 256 ∧
  h.payload_size < 65536

instance (h : MVNHeader) : Decidable h.wellformed := by
  unfold MVNHeader.wellformed
  infer_instance

/-- `is_last_datagram` (mvn_types.py line 512): most significant bit of the
fragment-control byte. -/
def is_last_datagram (datagram_counter : Nat) : Bool :=
  datagram_counter &&& 0x80 != 0

/-- `get_datagram_index` (mvn_types.py line 516): low 7 bits of the
fragment-control byte. -/
def get_datagram_index (datagram_counter : Nat) : Nat :=
  datagram_counter &&& 0x7F

/-- Python `dict` lookup on an association list (first matching key). -/
def alookup {κ α : Type} [DecidableEq κ] : List (κ × α) → κ → Option α
  | [], _ => none
  | (k, v) :: t, key => if key = k then some v else alookup t key

/-- Python `dict` assignment: replace the value of an existing key in place,
append a new key at the end (insertion order preserved). -/
def ainsert {κ α : Type} [DecidableEq κ] : List (κ × α) → κ → α → List (κ × α)
  | [], key, v => [(key, v)]
  | (k, w) :: t, key, v =>
      if k = key then (k, v) :: t else (k, w) :: ainsert t key v

/-- Python `del dict[key]`: remove the (unique) binding of `key`. -/
def aerase {κ α : Type} [DecidableEq κ] : List (κ × α) → κ → List (κ × α)
  | [], _ => []
  | (k, w) :: t, key => if k = key then t else (k, w) :: aerase t key

/-- The `partial_datagrams` storage of `MVNReceiver`: per
(sample counter, character id) key, a growable list with one optional byte
buffer per fragment index seen so far. -/
structure TrackerSt where
  partial_datagrams : List ((Nat × Nat) × List (Option (List Nat)))
deriving DecidableEq, Repr

/-- The `while len(lst) <= index: lst.append(None)` padding used by
`_handle_partial_datagram` and `_get_complete_payload`. -/
def extendTo (l : List (Option (List Nat))) (idx : Nat) :
    List (Option (List Nat)) :=
  l ++ List.replicate (idx + 1 - l.length) none

/-- `b''.join` over the slot list: `none` in any slot is Python's
`TypeError` (modelled as `none` here), otherwise the concatenation. -/
def joinAll : List (Option (List Nat)) → Option (List Nat)
  | [] => some []
  | none :: _ => none
  | some b :: t => (joinAll t).map (fun r => b ++ r)

/-- `MVNReceiver._handle_partial_datagram` (mvn_receiver.py lines 167-187):
create the key's slot list if absent, pad it with `None` up to the fragment
index, store the payload at that index. -/
def handle_partial_datagram (st : TrackerSt) (h : MVNHeader)
    (payload : List Nat) : TrackerSt :=
  let key := (h.sample_counter, h.character_id)
  let idx := get_datagram_index h.datagram_counter
  let cur := (alookup st.partial_datagrams key).getD []
  ⟨ainsert st.partial_datagrams key ((extendTo cur idx).set idx (some payload))⟩

/-- `MVNReceiver._get_complete_payload` (mvn_receiver.py lines 189-235),
returning the raised error or complete payload together with the
`partial_datagrams` state at that moment. Single final fragment of index 0:
check the payload length against the header's payload size, touch no state.
Otherwise: require an entry for the key, store the final payload at its
index, fail with "Incomplete datagram sequence" if a slot up to that index
is still empty (the entry, including the just-stored fragment, remains),
else join all slots, delete the entry, and only then check the combined
size. -/
def get_complete_payload (st : TrackerSt) (h : MVNHeader)
    (payload : List Nat) : Except MVNErr (List Nat) × TrackerSt :=
  if is_last_datagram h.datagram_counter &&
      (get_datagram_index h.datagram_counter == 0) then
    if payload.length < h.payload_size then
      (.error (.datagramError "Payload size mismatch" h.datagram_counter
        h.sample_counter), st)
    else
      (.ok payload, st)
  else
    let key := (h.sample_counter, h.character_id)
    match alookup st.partial_datagrams key with
    | none =>
        (.error (.datagramError "Missing partial datagrams" h.datagram_counter
          h.sample_counter), st)
    | some cur =>
        let idx := get_datagram_index h.datagram_counter
        let entry := (extendTo cur idx).set idx (some payload)
        let st1 : TrackerSt := ⟨ainsert st.partial_datagrams key entry⟩
        if none ∈ entry.take (idx + 1) then
          (.error (.datagramError "Incomplete datagram sequence"
            h.datagram_counter h.sample_counter), st1)
        else
          match joinAll entry with
          | none => (.error .pyTypeErr, st1)
          | some complete_payload =>
              let st2 : TrackerSt := ⟨aerase st1.partial_datagrams key⟩
              if complete_payload.length < h.payload_size then
                (.error (.datagramError "Combined payload size mismatch"
                  h.datagram_counter h.sample_counter), st2)
              else
                (.ok complete_payload, st2)

/-- The `partial_datagrams` effect of `stop()` (mvn_receiver.py line 106):
`self.partial_datagrams.clear()`. -/
def stop_clear_tracker (_st : TrackerSt) : TrackerSt := ⟨[]⟩

/-- One `_receive_loop` iteration (mvn_receiver.py lines 117-152) restricted
to its effect on `partial_datagrams` and the complete payload it hands to
payload decoding: header-parse errors drop the datagram; a non-final
fragment is stored and nothing is delivered; a final fragment goes through
`_get_complete_payload`, whose errors are caught (datagram dropped, state
as left by that call). The stages after completion (payload decode,
dispatch) and the diagnostic character/sample-counter tracking never touch
`partial_datagrams`, and `_cleanup_old_partial_datagrams` is never invoked
by the loop — accordingly this step function has no time input. -/
def receive_step (st : TrackerSt) (data : List Nat) :
    TrackerSt × Option (List Nat) :=
  match parse_header data with
  | .error _ => (st, none)
  | .ok (h, bytes_consumed) =>
      if !(is_last_datagram h.datagram_counter) then
        (handle_partial_datagram st h (data.drop bytes_consumed), none)
      else
        match get_complete_payload st h (data.drop bytes_consumed) with
        | (.ok p, st1) => (st1, some p)
        | (.error _, st1) => (st1, none)

/-- `MVNReceiver._cleanup_old_partial_datagrams` (mvn_receiver.py lines
320-332), on the `partial_datagrams` part: drop every entry whose recorded
time in `partial_datagram_times` (default 0 — the receiver never populates
that dictionary) is more than one second before `current_time`. Time is in
whole seconds here; the source's float seconds change nothing at the
1-second threshold for the integral instants the claims use. This routine
is defined by the source but never called from the receive loop. -/
def cleanup_old_partial_datagrams (st : TrackerSt)
    (partial_datagram_times : List ((Nat × Nat) × Nat))
    (current_time : Nat) : TrackerSt :=
  ⟨st.partial_datagrams.filter fun p =>
    !(decide (1 < current_time - (alookup partial_datagram_times p.1).getD 0))⟩

/-- A header for fragment submission: key fields and fragment control as
given, remaining fields fixed (the tracker functions read only
`sample_counter`, `character_id`, `datagram_counter`, `payload_size`). -/
def mkFragHeader (sc cid dc psize : Nat) : MVNHeader :=
  { id_string := strBytes "MXTP02", sample_counter := sc,
    datagram_counter := dc, num_items := 0, time_code := 0,
    character_id := cid, num_segments := 0, num_props := 0,
    num_fingers := 0, payload_size := psize }

/-- Submit fragments in index order starting at index `i`: all but the last
through `_handle_partial_datagram` with the final bit clear, the last
through `_get_complete_payload` with the final bit set — the routing
`_receive_loop` performs for a fragmented message. -/
def submit_fragments (sc cid psize : Nat) :
    Nat → List (List Nat) → TrackerSt → Except MVNErr (List Nat) × TrackerSt
  | _, [], st => (.error .pyTypeErr, st)
  | i, [p], st => get_complete_payload st (mkFragHeader sc cid (128 + i) psize) p
  | i, p :: q :: rest, st =>
      submit_fragments sc cid psize (i + 1) (q :: rest)
        (handle_partial_datagram st (mkFragHeader sc cid i psize) p)

set_option linter.unusedVariables false in
/-- `MVNReceiver._handle_parsed_data` (mvn_receiver.py lines 256-283).
Callback mode: the source calls `self.callback(msg_type, data)` with two
positional arguments — a three-parameter handler such as the repository's
`main.py handle_data(msg_type, data, header=None)` receives `header = None`,
recorded here as the `none` third component of the delivered triple. Queue
mode: if the queue is full (Python `Queue.full()`: `0 < maxsize ≤ size`),
the oldest entry is discarded, then the pair `(msg_type, data)` is enqueued.
The `header` argument the receiver holds is not passed on in either mode.
The tracker-kinematics branch of the source only emits debug logs and is
omitted; the payload type is a type parameter since the source is untyped
here. -/
def handle_parsed_data {α : Type} (has_callback : Bool)
    (data_queue : List (String × α)) (maxsize : Nat) (msg_type : String)
    (data : α) (header : MVNHeader) :
    List (String × α) × Option (String × α × Option MVNHeader) :=
  if has_callback then
    (data_queue, some (msg_type, data, none))
  else
    let q1 := if 0 < maxsize ∧ maxsize ≤ data_queue.length then
        data_queue.drop 1
      else
        data_queue
    (q1 ++ [(msg_type, data)], none)

/-- First fragment (index 0, final bit clear) of a 2-fragment message for
key (7, 3); its final fragment never arrives. -/
def c2_frag0 : List Nat := encode_header (mkFragHeader 7 3 0 4) ++ [1, 2]

/-- A complete single-fragment datagram for key (8, 3). -/
def c2_other1 : List Nat := encode_header (mkFragHeader 8 3 128 2) ++ [9, 9]

/-- First fragment of a 2-fragment message for key (9, 4). -/
def c2_other2 : List Nat := encode_header (mkFragHeader 9 4 0 4) ++ [5]

/-- A malformed datagram (truncated header). -/
def c2_garbage : List Nat := [0, 1, 2]

/-- Final fragment completing the key (9, 4) message. -/
def c2_other3 : List Nat := encode_header (mkFragHeader 9 4 129 4) ++ [6, 6, 6]

/-- The tracker state after the receive loop processes the five datagrams
above in order, starting from an empty tracker. -/
def c2_final_state : TrackerSt :=
  List.foldl (fun st d => (receive_step st d).1) ⟨[]⟩
    [c2_frag0, c2_other1, c2_other2, c2_garbage, c2_other3]


/-- `SEGMENT_NAMES` (mvn_types.py lines 352-423): body segments, props and
finger segments by id. -/
def SEGMENT_NAMES : List (Nat × String) :=
  [(0, "Pelvis"), (1, "L5"), (2, "L3"), (3, "T12"), (4, "T8"), (5, "Neck"),
   (6, "Head"), (7, "Right Shoulder"), (8, "Right Upper Arm"),
   (9, "Right Forearm"), (10, "Right Hand"), (11, "Left Shoulder"),
   (12, "Left Upper Arm"), (13, "Left Forearm"), (14, "Left Hand"),
   (15, "Right Upper Leg"), (16, "Right Lower Leg"), (17, "Right Foot"),
   (18, "Right Toe"), (19, "Left Upper Leg"), (20, "Left Lower Leg"),
   (21, "Left Foot"), (22, "Left Toe"), (23, "Prop1"), (24, "Prop2"),
   (25, "Prop3"), (26, "Prop4"), (27, "Left Carpus"), (28, "Left First MC"),
   (29, "Left First PP"), (30, "Left First DP"), (31, "Left Second MC"),
   (32, "Left Second PP"), (33, "Left Second MP"), (34, "Left Second DP"),
   (35, "Left Third MC"), (36, "Left Third PP"), (37, "Left Third MP"),
   (38, "Left Third DP"), (39, "Left Fourth MC"), (40, "Left Fourth PP"),
   (41, "Left Fourth MP"), (42, "Left Fourth DP"), (43, "Left Fifth MC"),
   (44, "Left Fifth PP"), (45, "Left Fifth MP"), (46, "Left Fifth DP"),
   (47, "Right Carpus"), (48, "Right First MC"), (49, "Right First PP"),
   (50, "Right First DP"), (51, "Right Second MC"), (52, "Right Second PP"),
   (53, "Right Second MP"), (54, "Right Second DP"), (55, "Right Third MC"),
   (56, "Right Third PP"), (57, "Right Third MP"), (58, "Right Third DP"),
   (59, "Right Fourth MC"), (60, "Right Fourth PP"), (61, "Right Fourth MP"),
   (62, "Right Fourth DP"), (63, "Right Fifth MC"), (64, "Right Fifth PP"),
   (65, "Right Fifth MP"), (66, "Right Fifth DP")]

/-- `UNITY3D_SEGMENT_NAMES` (mvn_types.py lines 426-450). -/
def UNITY3D_SEGMENT_NAMES : List (Nat × String) :=
  [(0, "Pelvis"), (1, "Right Upper Leg"), (2, "Right Lower Leg"),
   (3, "Right Foot"), (4, "Right Toe"), (5, "Left Upper Leg"),
   (6, "Left Lower Leg"), (7, "Left Foot"), (8, "Left Toe"), (9, "L5"),
   (10, "L3"), (11, "T12"), (12, "T8"), (13, "Left Shoulder"),
   (14, "Left Upper Arm"), (15, "Left Forearm"), (16, "Left Hand"),
   (17, "Right Shoulder"), (18, "Right Upper Arm"), (19, "Right Forearm"),
   (20, "Right Hand"), (21, "Neck"), (22, "Head")]

/-- `LEFT_FINGER_SEGMENTS` (mvn_types.py lines 453-474). -/
def LEFT_FINGER_SEGMENTS : List (Nat × String) :=
  [(0, "Left Carpus"), (1, "Left First Metacarpal"),
   (2, "Left First Proximal Phalange"), (3, "Left First Distal Phalange"),
   (4, "Left Second Metacarpal"), (5, "Left Second Proximal Phalange"),
   (6, "Left Second Middle Phalange"), (7, "Left Second Distal Phalange"),
   (8, "Left Third Metacarpal"), (9, "Left Third Proximal Phalange"),
   (10, "Left Third Middle Phalange"), (11, "Left Third Distal Phalange"),
   (12, "Left Fourth Metacarpal"), (13, "Left Fourth Proximal Phalange"),
   (14, "Left Fourth Middle Phalange"), (15, "Left Fourth Distal Phalange"),
   (16, "Left Fifth Metacarpal"), (17, "Left Fifth Proximal Phalange"),
   (18, "Left Fifth Middle Phalange"), (19, "Left Fifth Distal Phalange")]

/-- `RIGHT_FINGER_SEGMENTS` (mvn_types.py lines 476-497). -/
def RIGHT_FINGER_SEGMENTS : List (Nat × String) :=
  [(0, "Right Carpus"), (1, "Right First Metacarpal"),
   (2, "Right First Proximal Phalange"), (3, "Right First Distal Phalange"),
   (4, "Right Second Metacarpal"), (5, "Right Second Proximal Phalange"),
   (6, "Right Second Middle Phalange"), (7, "Right Second Distal Phalange"),
   (8, "Right Third Metacarpal"), (9, "Right Third Proximal Phalange"),
   (10, "Right Third Middle Phalange"), (11, "Right Third Distal Phalange"),
   (12, "Right Fourth Metacarpal"), (13, "Right Fourth Proximal Phalange"),
   (14, "Right Fourth Middle Phalange"), (15, "Right Fourth Distal Phalange"),
   (16, "Right Fifth Metacarpal"), (17, "Right Fifth Proximal Phalange"),
   (18, "Right Fifth Middle Phalange"), (19, "Right Fifth Distal Phalange")]

/-- `Position` of mvn_types.py; fields are raw 32-bit float words. -/
structure MVNPosition where
  x : Nat
  y : Nat
  z : Nat
deriving DecidableEq, Repr

/-- `Velocity` of mvn_types.py; raw 32-bit float words. -/
structure MVNVelocity where
  x : Nat
  y : Nat
  z : Nat
deriving DecidableEq, Repr

/-- `Acceleration` of mvn_types.py; raw 32-bit float words. -/
structure MVNAcceleration where
  x : Nat
  y : Nat
  z : Nat
deriving DecidableEq, Repr

/-- `Quaternion` of mvn_types.py (w, x, y, z); raw 32-bit float words. -/
structure MVNQuaternion where
  w : Nat
  x : Nat
  y : Nat
  z : Nat
deriving DecidableEq, Repr

/-- `Euler` of mvn_types.py; raw 32-bit float words. -/
structure MVNEuler where
  x : Nat
  y : Nat
  z : Nat
deriving DecidableEq, Repr

/-- `AngularVelocity` of mvn_types.py; raw 32-bit float words. -/
structure MVNAngularVelocity where
  x : Nat
  y : Nat
  z : Nat
deriving DecidableEq, Repr

/-- `AngularAcceleration` of mvn_types.py; raw 32-bit float words. -/
structure MVNAngularAcceleration where
  x : Nat
  y : Nat
  z : Nat
deriving DecidableEq, Repr

/-- The `Segment.orientation` field holds an `Euler` or a `Quaternion`
depending on the message kind (Python `Any`). -/
inductive MVNOrientation where
  | eulerO (e : MVNEuler)
  | quatO (q : MVNQuaternion)
deriving DecidableEq, Repr

/-- `Segment` of mvn_types.py. -/
structure MVNSegment where
  id : Nat
  position : MVNPosition
  orientation : MVNOrientation
deriving DecidableEq, Repr

/-- `Point` of mvn_types.py (flags default 0). -/
structure MVNPoint where
  id : Nat
  position : MVNPosition
  flags : Nat
deriving DecidableEq, Repr

/-- `LinearKinematics` of mvn_types.py. -/
structure LinearKinematics where
  segment_id : Nat
  position : MVNPosition
  velocity : MVNVelocity
  acceleration : MVNAcceleration
deriving DecidableEq, Repr

/-- `AngularKinematics` of mvn_types.py. -/
structure AngularKinematics where
  segment_id : Nat
  orientation : MVNQuaternion
  angular_velocity : MVNAngularVelocity
  angular_acceleration : MVNAngularAcceleration
deriving DecidableEq, Repr

/-- `TrackerKinematics` of mvn_types.py (the `tracker_id` field is never
set by the parser and is omitted). -/
structure TrackerKinematics where
  segment_id : Nat
  orientation : MVNQuaternion
  free_acceleration : MVNAcceleration
  magnetic_field : MVNPosition
deriving DecidableEq, Repr

/-- The segment-name computation of `parse_pose_euler` and
`parse_pose_quaternion` (mvn_parser.py lines 181-192 / 241-252): exact
table match first, then finger-range arithmetic, else the (unreachable
after the validity check) synthetic name. The finger branches index a
20-entry table with an in-range index, so the `getD` default is never
used. -/
def resolve_body_segment_name (segment_id : Nat) : String :=
  match alookup SEGMENT_NAMES segment_id with
  | some nm => nm
  | none =>
      if 23 ≤ segment_id ∧ segment_id < 43 then
        (alookup LEFT_FINGER_SEGMENTS (segment_id - 23)).getD ""
      else if 43 ≤ segment_id ∧ segment_id < 63 then
        (alookup RIGHT_FINGER_SEGMENTS (segment_id - 43)).getD ""
      else
        "Unknown_Segment_" ++ toString segment_id

/-- `self.unity3d_segment_names[segment_id]` after the membership check
(mvn_parser.py line 328); the default is unreachable. -/
def resolve_unity_segment_name (segment_id : Nat) : String :=
  (alookup UNITY3D_SEGMENT_NAMES segment_id).getD ""

/-- `self.segment_names[segment_id]` after the membership check
(mvn_parser.py lines 501 and 545); the default is unreachable. -/
def resolve_table_segment_name (segment_id : Nat) : String :=
  (alookup SEGMENT_NAMES segment_id).getD ""

/-- The tracker-kinematics name rule (mvn_parser.py lines 584-588): table
name when known, otherwise the synthetic `Tracker_<id>`. -/
def resolve_tracker_segment_name (segment_id : Nat) : String :=
  match alookup SEGMENT_NAMES segment_id with
  | some nm => nm
  | none => "Tracker_" ++ toString segment_id

/-- The finger-range test of `parse_pose_euler` / `parse_pose_quaternion`
(mvn_parser.py lines 160-163 / 220-223). -/
def is_finger_segment (segment_id : Nat) : Bool :=
  (decide (23 ≤ segment_id) && decide (segment_id < 43)) ||
    (decide (43 ≤ segment_id) && decide (segment_id < 63))

/-- Loop body of `MVNParser.parse_pose_euler` (mvn_parser.py lines 145-203):
per record validate 28 bytes, read the id, fail with a segment error unless
the id is in the table or a finger range, read position and Euler rotation,
store under the resolved name. -/
def parse_pose_euler_go (data : List Nat) :
    Nat → Nat → List (String × MVNSegment) →
      Except MVNErr (List (String × MVNSegment))
  | 0, _, result => .ok result
  | n + 1, offset, result =>
      if data.length - offset < 28 then
        .error (.parseError "euler pose" (some offset))
      else
        let segment_id := readBE data offset 4
        if (alookup SEGMENT_NAMES segment_id).isNone &&
            !(is_finger_segment segment_id) then
          .error (.segmentError "Invalid segment ID" segment_id)
        else
          let position : MVNPosition := ⟨readBE data (offset + 4) 4,
            readBE data (offset + 8) 4, readBE data (offset + 12) 4⟩
          let rotation : MVNEuler := ⟨readBE data (offset + 16) 4,
            readBE data (offset + 20) 4, readBE data (offset + 24) 4⟩
          parse_pose_euler_go data n (offset + 28)
            (ainsert result (resolve_body_segment_name segment_id)
              ⟨segment_id, position, .eulerO rotation⟩)

/-- `MVNParser.parse_pose_euler`. -/
def parse_pose_euler (data : List Nat) (num_items : Nat) :
    Except MVNErr (List (String × MVNSegment)) :=
  parse_pose_euler_go data num_items 0 []

/-- Loop body of `MVNParser.parse_pose_quaternion` (mvn_parser.py lines
205-263): as the Euler variant but with a 32-byte stride and a
quaternion orientation. -/
def parse_pose_quaternion_go (data : List Nat) :
    Nat → Nat → List (String × MVNSegment) →
      Except MVNErr (List (String × MVNSegment))
  | 0, _, result => .ok result
  | n + 1, offset, result =>
      if data.length - offset < 32 then
        .error (.parseError "quaternion pose" (some offset))
      else
        let segment_id := readBE data offset 4
        if (alookup SEGMENT_NAMES segment_id).isNone &&
            !(is_finger_segment segment_id) then
          .error (.segmentError "Invalid segment ID" segment_id)
        else
          let position : MVNPosition := ⟨readBE data (offset + 4) 4,
            readBE data (offset + 8) 4, readBE data (offset + 12) 4⟩
          let quaternion : MVNQuaternion := ⟨readBE data (offset + 16) 4,
            readBE data (offset + 20) 4, readBE data (offset + 24) 4,
            readBE data (offset + 28) 4⟩
          parse_pose_quaternion_go data n (offset + 32)
            (ainsert result (resolve_body_segment_name segment_id)
              ⟨segment_id, position, .quatO quaternion⟩)

/-- `MVNParser.parse_pose_quaternion`. -/
def parse_pose_quaternion (data : List Nat) (num_items : Nat) :
    Except MVNErr (List (String × MVNSegment)) :=
  parse_pose_quaternion_go data num_items 0 []

/-- Loop body of `MVNParser.parse_point_data` (mvn_parser.py lines 266-297):
per record validate 16 bytes, read the point id (no validity check) and
position, store under the numeric point id (`result[point_id] = point`). -/
def parse_point_data_go (data : List Nat) :
    Nat → Nat → List (Nat × MVNPoint) → Except MVNErr (List (Nat × MVNPoint))
  | 0, _, result => .ok result
  | n + 1, offset, result =>
      if data.length - offset < 16 then
        .error (.parseError "point data" (some offset))
      else
        let point_id := readBE data offset 4
        let position : MVNPosition := ⟨readBE data (offset + 4) 4,
          readBE data (offset + 8) 4, readBE data (offset + 12) 4⟩
        parse_point_data_go data n (offset + 16)
          (ainsert result point_id ⟨point_id, position, 0⟩)

/-- `MVNParser.parse_point_data`: note the result is keyed by the numeric
point id, not by a segment name. -/
def parse_point_data (data : List Nat) (num_items : Nat) :
    Except MVNErr (List (Nat × MVNPoint)) :=
  parse_point_data_go data num_items 0 []

/-- Loop body of `MVNParser.parse_unity3d_data` (mvn_parser.py lines
299-337): per record validate 32 bytes, read the id, fail with a segment
error unless it is in the Unity table, read position and quaternion, store
under the Unity table name. -/
def parse_unity3d_data_go (data : List Nat) :
    Nat → Nat → List (String × MVNSegment) →
      Except MVNErr (List (String × MVNSegment))
  | 0, _, result => .ok result
  | n + 1, offset, result =>
      if data.length - offset < 32 then
        .error (.parseError "Unity3D data" (some offset))
      else
        let segment_id := readBE data offset 4
        if (alookup UNITY3D_SEGMENT_NAMES segment_id).isNone then
          .error (.segmentError "Invalid Unity3D segment ID" segment_id)
        else
          let position : MVNPosition := ⟨readBE data (offset + 4) 4,
            readBE data (offset + 8) 4, readBE data (offset + 12) 4⟩
          let quaternion : MVNQuaternion := ⟨readBE data (offset + 16) 4,
            readBE data (offset + 20) 4, readBE data (offset + 24) 4,
            readBE data (offset + 28) 4⟩
          parse_unity3d_data_go data n (offset + 32)
            (ainsert result (resolve_unity_segment_name segment_id)
              ⟨segment_id, position, .quatO quaternion⟩)

/-- `MVNParser.parse_unity3d_data`. -/
def parse_unity3d_data (data : List Nat) (num_items : Nat) :
    Except MVNErr (List (String × MVNSegment)) :=
  parse_unity3d_data_go data num_items 0 []

/-- Loop body of `MVNParser.parse_linear_kinematics` (mvn_parser.py lines
468-510): per record validate 40 bytes, read the id, fail with a segment
error unless it is in `SEGMENT_NAMES` (no finger-range fallback here),
read position, velocity and acceleration, store under the table name. -/
def parse_linear_kinematics_go (data : List Nat) :
    Nat → Nat → List (String × LinearKinematics) →
      Except MVNErr (List (String × LinearKinematics))
  | 0, _, result => .ok result
  | n + 1, offset, result =>
      if data.length - offset < 40 then
        .error (.parseError "linear kinematics" (some offset))
      else
        let segment_id := readBE data offset 4
        if (alookup SEGMENT_NAMES segment_id).isNone then
          .error (.segmentError "Invalid segment ID" segment_id)
        else
          let position : MVNPosition := ⟨readBE data (offset + 4) 4,
            readBE data (offset + 8) 4, readBE data (offset + 12) 4⟩
          let velocity : MVNVelocity := ⟨readBE data (offset + 16) 4,
            readBE data (offset + 20) 4, readBE data (offset + 24) 4⟩
          let acceleration : MVNAcceleration := ⟨readBE data (offset + 28) 4,
            readBE data (offset + 32) 4, readBE data (offset + 36) 4⟩
          parse_linear_kinematics_go data n (offset + 40)
            (ainsert result (resolve_table_segment_name segment_id)
              ⟨segment_id, position, velocity, acceleration⟩)

/-- `MVNParser.parse_linear_kinematics`. -/
def parse_linear_kinematics (data : List Nat) (num_items : Nat) :
    Except MVNErr (List (String × LinearKinematics)) :=
  parse_linear_kinematics_go data num_items 0 []

/-- Loop body of `MVNParser.parse_angular_kinematics` (mvn_parser.py lines
512-554): per record validate 44 bytes, read the id, fail with a segment
error unless it is in `SEGMENT_NAMES`, read quaternion, angular velocity
and angular acceleration, store under the table name. -/
def parse_angular_kinematics_go (data : List Nat) :
    Nat → Nat → List (String × AngularKinematics) →
      Except MVNErr (List (String × AngularKinematics))
  | 0, _, result => .ok result
  | n + 1, offset, result =>
      if data.length - offset < 44 then
        .error (.parseError "angular kinematics" (some offset))
      else
        let segment_id := readBE data offset 4
        if (alookup SEGMENT_NAMES segment_id).isNone then
          .error (.segmentError "Invalid segment ID" segment_id)
        else
          let orientation : MVNQuaternion := ⟨readBE data (offset + 4) 4,
            readBE data (offset + 8) 4, readBE data (offset + 12) 4,
            readBE data (offset + 16) 4⟩
          let ang_vel : MVNAngularVelocity := ⟨readBE data (offset + 20) 4,
            readBE data (offset + 24) 4, readBE data (offset + 28) 4⟩
          let ang_acc : MVNAngularAcceleration := ⟨readBE data (offset + 32) 4,
            readBE data (offset + 36) 4, readBE data (offset + 40) 4⟩
          parse_angular_kinematics_go data n (offset + 44)
            (ainsert result (resolve_table_segment_name segment_id)
              ⟨segment_id, orientation, ang_vel, ang_acc⟩)

/-- `MVNParser.parse_angular_kinematics`. -/
def parse_angular_kinematics (data : List Nat) (num_items : Nat) :
    Except MVNErr (List (String × AngularKinematics)) :=
  parse_angular_kinematics_go data num_items 0 []

/-- Loop body of `MVNParser.parse_tracker_kinematics` (mvn_parser.py lines
556-605): per record validate 44 bytes, read the id — any 32-bit id is
accepted, no validity check — read quaternion, free acceleration and
magnetic field, store under the table name when known and otherwise under
the synthetic name `Tracker_<id>`. -/
def parse_tracker_kinematics_go (data : List Nat) :
    Nat → Nat → List (String × TrackerKinematics) →
      Except MVNErr (List (String × TrackerKinematics))
  | 0, _, result => .ok result
  | n + 1, offset, result =>
      if data.length - offset < 44 then
        .error (.parseError "tracker kinematics" (some offset))
      else
        let segment_id := readBE data offset 4
        let orientation : MVNQuaternion := ⟨readBE data (offset + 4) 4,
          readBE data (offset + 8) 4, readBE data (offset + 12) 4,
          readBE data (offset + 16) 4⟩
        let free_acc : MVNAcceleration := ⟨readBE data (offset + 20) 4,
          readBE data (offset + 24) 4, readBE data (offset + 28) 4⟩
        let magnetic : MVNPosition := ⟨readBE data (offset + 32) 4,
          readBE data (offset + 36) 4, readBE data (offset + 40) 4⟩
        parse_tracker_kinematics_go data n (offset + 44)
          (ainsert result (resolve_tracker_segment_name segment_id)
            ⟨segment_id, orientation, free_acc, magnetic⟩)

/-- `MVNParser.parse_tracker_kinematics`. -/
def parse_tracker_kinematics (data : List Nat) (num_items : Nat) :
    Except MVNErr (List (String × TrackerKinematics)) :=
  parse_tracker_kinematics_go data num_items 0 []


/-- A decimal digit byte (Python regex `\\d` over ASCII text). -/
def isDigitByte (b : Nat) : Bool := decide (48 ≤ b) && decide (b ≤ 57)

/-- An ASCII whitespace byte, the characters Python `str.strip()` removes. -/
def isSpaceByte (b : Nat) : Bool :=
  b == 9 || b == 10 || b == 11 || b == 12 || b == 13 || b == 32

/-- Python `str.strip()` on ASCII text. -/
def pyStrip (l : List Nat) : List Nat :=
  ((l.dropWhile isSpaceByte).reverse.dropWhile isSpaceByte).reverse

/-- `TimeCode` of mvn_types.py; `time_str` holds the bytes of the
(normalized) time string. -/
structure TimeCode where
  time_str : List Nat
deriving DecidableEq, Repr

/-- `TimeCode.__post_init__` (mvn_types.py lines 281-284): append ".000"
when the string has no dot. -/
def mkTimeCode (t : List Nat) : TimeCode :=
  ⟨if 46 ∈ t then t else t ++ strBytes ".000"⟩

/-- One 8-byte window test of `parse_time_code`'s scanning loop: the window
decodes as ASCII and `re.match(r'\\d{2}:\\d{2}:\\d{2}', segment)` succeeds
(the prefix-anchored pattern covers exactly the 8 window characters). -/
def tc_window_match (w : List Nat) : Bool :=
  (w.all fun b => decide (b < 128)) &&
    isDigitByte (w.getD 0 0) && isDigitByte (w.getD 1 0) &&
    (w.getD 2 0 == 58) && isDigitByte (w.getD 3 0) &&
    isDigitByte (w.getD 4 0) && (w.getD 5 0 == 58) &&
    isDigitByte (w.getD 6 0) && isDigitByte (w.getD 7 0)

/-- The scanning loop of `parse_time_code` (mvn_parser.py lines 631-639):
`for i in range(len(data) - 7)`, decode `data[i:i+8]` and match the
pattern; on the first hit keep `data[i:]` (the suffix from the match).
Formulated structurally — each iteration drops the head byte — which is the
same search since `data[i:]` is `data.drop i`. -/
def tc_scan : List Nat → Option (List Nat)
  | [] => none
  | b :: rest =>
      if (b :: rest).length < 8 then none
      else if tc_window_match ((b :: rest).take 8) then some (b :: rest)
      else tc_scan rest

/-- The anchored `TIME_CODE_PATTERN` of mvn_types.py line 14:
`^\\d{2}:\\d{2}:\\d{2}(?:\\.\\d{3})?$` over the whole string. -/
def tc_pattern_full (t : List Nat) : Bool :=
  (t.length == 8 || (t.length == 12 && (t.getD 8 0 == 46) &&
      isDigitByte (t.getD 9 0) && isDigitByte (t.getD 10 0) &&
      isDigitByte (t.getD 11 0))) &&
    isDigitByte (t.getD 0 0) && isDigitByte (t.getD 1 0) &&
    (t.getD 2 0 == 58) && isDigitByte (t.getD 3 0) &&
    isDigitByte (t.getD 4 0) && (t.getD 5 0 == 58) &&
    isDigitByte (t.getD 6 0) && isDigitByte (t.getD 7 0)

/-- `int(time_str[0:2])` on a pattern-matching string. -/
def tc_hours (t : List Nat) : Nat :=
  (t.getD 0 0 - 48) * 10 + (t.getD 1 0 - 48)

/-- `int(time_str[3:5])` on a pattern-matching string. -/
def tc_minutes (t : List Nat) : Nat :=
  (t.getD 3 0 - 48) * 10 + (t.getD 4 0 - 48)

/-- `int(time_str[6:8])` on a pattern-matching string. -/
def tc_seconds (t : List Nat) : Nat :=
  (t.getD 6 0 - 48) * 10 + (t.getD 7 0 - 48)

/-- `validate_time_code` (mvn_types.py lines 520-545): anchored pattern,
then 0 ≤ hours ≤ 23, minutes ≤ 59, seconds ≤ 59; the milliseconds check
`0 ≤ int(three digits) ≤ 999` is always true and needs no clause. -/
def validate_time_code (t : List Nat) : Bool :=
  tc_pattern_full t && decide (tc_hours t ≤ 23) &&
    decide (tc_minutes t ≤ 59) && decide (tc_seconds t ≤ 59)

/-- The 8-byte fallback of `parse_time_code` (mvn_parser.py lines 657-660)
followed by the final raise (line 666): decode `tcb[:8]`, strip, validate,
else a "time code" parse error. -/
def tc_attempt8 (tcb : List Nat) : Except MVNErr TimeCode :=
  if (tcb.take 8).all (fun b => decide (b < 128)) then
    if validate_time_code (pyStrip (tcb.take 8)) then
      .ok (mkTimeCode (pyStrip (tcb.take 8)))
    else
      .error (.parseError "time code" none)
  else
    .error (.parseError "time code" none)

/-- `MVNParser.parse_time_code` (mvn_parser.py lines 620-677): scan for the
first position matching the two-digits pattern (a "time code" parse error
when none exists); from the match, when at least 12 bytes remain, decode
the first 12 — a decode failure here is caught by the `except
UnicodeDecodeError` and falls through to the final raise WITHOUT trying the
8-byte format — strip and validate them, else fall back to the first 8
bytes; a validated string becomes a `TimeCode` (normalized by its
constructor). -/
def parse_time_code (data : List Nat) : Except MVNErr TimeCode :=
  match tc_scan data with
  | none => .error (.parseError "time code" none)
  | some tcb =>
      if 12 ≤ tcb.length then
        if (tcb.take 12).all (fun b => decide (b < 128)) then
          if validate_time_code (pyStrip (tcb.take 12)) then
            .ok (mkTimeCode (pyStrip (tcb.take 12)))
          else
            tc_attempt8 tcb
        else
          .error (.parseError "time code" none)
      else
        tc_attempt8 tcb

set_option maxRecDepth 8192 in
theorem datagram_bits :
    ∀ dc < 256, is_last_datagram dc = decide (128 ≤ dc) ∧
      get_datagram_index dc = dc % 128 := by
  decide

theorem is_last_of_lt {i : Nat} (h : i < 128) : is_last_datagram i = false := by
  have := (datagram_bits i (by omega)).1
  simp only [this, decide_eq_false_iff_not]
  omega

theorem index_of_lt {i : Nat} (h : i < 128) : get_datagram_index i = i := by
  have := (datagram_bits i (by omega)).2
  omega

theorem is_last_of_add {i : Nat} (h : i < 128) :
    is_last_datagram (128 + i) = true := by
  have := (datagram_bits (128 + i) (by omega)).1
  simp only [this, decide_eq_true_eq]
  omega

theorem index_of_add {i : Nat} (h : i < 128) :
    get_datagram_index (128 + i) = i := by
  have := (datagram_bits (128 + i) (by omega)).2
  omega

theorem alookup_ainsert_self {κ α : Type} [DecidableEq κ]
    (m : List (κ × α)) (k : κ) (v : α) :
    alookup (ainsert m k v) k = some v := by
  induction m with
  | nil => simp [ainsert, alookup]
  | cons p t ih =>
      obtain ⟨k', w⟩ := p
      by_cases h : k' = k
      · subst h; simp [ainsert, alookup]
      · simp [ainsert, alookup, h, Ne.symm h, ih]

theorem ainsert_of_absent {κ α : Type} [DecidableEq κ]
    (m : List (κ × α)) (k : κ) (v : α) (h : alookup m k = none) :
    ainsert m k v = m ++ [(k, v)] := by
  induction m with
  | nil => rfl
  | cons p t ih =>
      obtain ⟨k', w⟩ := p
      simp only [alookup] at h
      by_cases hk : k = k'
      · simp [hk] at h
      · simp only [if_neg hk] at h
        simp [ainsert, Ne.symm hk, ih h]

theorem ainsert_append_self {κ α : Type} [DecidableEq κ]
    (m : List (κ × α)) (k : κ) (v w : α) (h : alookup m k = none) :
    ainsert (m ++ [(k, v)]) k w = m ++ [(k, w)] := by
  induction m with
  | nil => simp [ainsert]
  | cons p t ih =>
      obtain ⟨k', u⟩ := p
      simp only [alookup] at h
      by_cases hk : k = k'
      · simp [hk] at h
      · simp only [if_neg hk] at h
        simp [ainsert, Ne.symm hk, ih h]

theorem aerase_append_absent {κ α : Type} [DecidableEq κ]
    (m : List (κ × α)) (k : κ) (v : α) (h : alookup m k = none) :
    aerase (m ++ [(k, v)]) k = m := by
  induction m with
  | nil => simp [aerase]
  | cons p t ih =>
      obtain ⟨k', u⟩ := p
      simp only [alookup] at h
      by_cases hk : k = k'
      · simp [hk] at h
      · simp only [if_neg hk] at h
        simp [aerase, Ne.symm hk, ih h]

theorem set_append_none (l : List (Option (List Nat))) (p : List Nat) :
    (l ++ [none]).set l.length (some p) = l ++ [some p] := by
  induction l with
  | nil => rfl
  | cons a t ih =>
      simp [List.set, ih]

theorem entry_step (pre : List (List Nat)) (p : List Nat) :
    (extendTo (pre.map some) pre.length).set pre.length (some p) =
      (pre ++ [p]).map some := by
  have hl : (pre.map some).length = pre.length := by simp
  have h1 : pre.length + 1 - (pre.map some).length = 1 := by omega
  rw [extendTo, h1]
  have := set_append_none (pre.map some) p
  rw [hl] at this
  simp only [List.replicate, this, List.map_append, List.map]

theorem joinAll_map_some (l : List (List Nat)) :
    joinAll (l.map some) = some l.flatten := by
  induction l with
  | nil => rfl
  | cons a t ih => simp [joinAll, ih]

theorem none_not_mem_take_map_some (l : List (List Nat)) (k : Nat) :
    ¬ none ∈ (l.map some).take k := by
  intro hmem
  have := List.take_subset k (l.map some) hmem
  simp at this

theorem alookup_append_absent {κ α : Type} [DecidableEq κ]
    (m : List (κ × α)) (k : κ) (v : α) (h : alookup m k = none) :
    alookup (m ++ [(k, v)]) k = some v := by
  rw [← ainsert_of_absent m k v h]
  exact alookup_ainsert_self m k v

theorem submit_fragments_go (sc cid psize : Nat) :
    ∀ (ps pre : List (List Nat)) (st : TrackerSt),
      ps ≠ [] → 1 ≤ pre.length → pre.length + ps.length ≤ 128 →
      alookup st.partial_datagrams (sc, cid) = none →
      psize ≤ (pre.flatten ++ ps.flatten).length →
      submit_fragments sc cid psize pre.length ps
          ⟨ainsert st.partial_datagrams (sc, cid) (pre.map some)⟩ =
        (.ok (pre.flatten ++ ps.flatten), st) := by
  intro ps
  induction ps with
  | nil => intro pre st hne; exact absurd rfl hne
  | cons p rest ih =>
      intro pre st _ hpre hlen habs hsize
      cases rest with
      | nil =>
          have hlt : pre.length < 128 := by simp at hlen; omega
          have hne0 : (pre.length == 0) = false := by
            rw [beq_eq_false_iff_ne]; omega
          have hment := none_not_mem_take_map_some (pre ++ [p]) (pre.length + 1)
          have e1 : ainsert st.partial_datagrams (sc, cid) (pre.map some) =
              st.partial_datagrams ++ [((sc, cid), pre.map some)] :=
            ainsert_of_absent _ _ _ habs
          have e2 : ainsert (st.partial_datagrams ++ [((sc, cid), pre.map some)])
              (sc, cid) ((pre ++ [p]).map some) =
              st.partial_datagrams ++ [((sc, cid), (pre ++ [p]).map some)] :=
            ainsert_append_self _ _ _ _ habs
          have e3 : aerase (st.partial_datagrams ++
              [((sc, cid), (pre ++ [p]).map some)]) (sc, cid) =
              st.partial_datagrams :=
            aerase_append_absent _ _ _ habs
          have hflat : ¬ ((pre ++ [p]).flatten.length < psize) := by
            simp at hsize ⊢; omega
          simp only [submit_fragments, get_complete_payload, mkFragHeader,
            is_last_of_add hlt, index_of_add hlt, hne0, Bool.true_and,
            Bool.false_eq_true, if_false, e1, alookup_append_absent _ _ _ habs,
            entry_step, e2, e3, joinAll_map_some, hflat]
          simpa using hment
      | cons q rest' =>
          have hlt : pre.length < 128 := by simp at hlen; omega
          have hstep : handle_partial_datagram
              ⟨ainsert st.partial_datagrams (sc, cid) (pre.map some)⟩
              (mkFragHeader sc cid pre.length psize) p =
              ⟨ainsert st.partial_datagrams (sc, cid) ((pre ++ [p]).map some)⟩ := by
            simp only [handle_partial_datagram, mkFragHeader, index_of_lt hlt,
              alookup_ainsert_self, Option.getD_some, entry_step]
            rw [ainsert_of_absent _ _ _ habs, ainsert_append_self _ _ _ _ habs,
              ← ainsert_of_absent _ _ _ habs]
          have hl2 : pre.length + 1 = (pre ++ [p]).length := by simp
          have hf2 : pre.flatten ++ (p :: q :: rest').flatten =
              (pre ++ [p]).flatten ++ (q :: rest').flatten := by
            simp [List.append_assoc]
          rw [submit_fragments, hstep, hl2, hf2]
          exact ih (pre ++ [p]) st (by simp) (by simp)
            (by simp at hlen ⊢; omega) habs (hf2 ▸ hsize)

/-- C1: for every key (sample counter, character id) and fragments submitted
in index order 0..N with only the last carrying the final bit, processing
through the reassembly tracker yields exactly one complete payload equal to
the concatenation of the fragment payloads in index order (given the total
length is at least the header's declared payload size), and afterwards the
tracker holds no entry for that key; stated for 1, 2 and 5 fragments of
arbitrary contents, from any tracker state with no entry for the key. -/
theorem C1_fragment_reassembly (sc cid psize : Nat) (ps : List (List Nat))
    (st : TrackerSt)
    (hn : ps.length = 1 ∨ ps.length = 2 ∨ ps.length = 5)
    (habs : alookup st.partial_datagrams (sc, cid) = none)
    (hsize : psize ≤ ps.flatten.length) :
    submit_fragments sc cid psize 0 ps st = (.ok ps.flatten, st) ∧
    alookup (submit_fragments sc cid psize 0 ps st).2.partial_datagrams
      (sc, cid) = none := by
  have hmain : submit_fragments sc cid psize 0 ps st = (.ok ps.flatten, st) := by
    match ps with
    | [] => simp at hn
    | [p] =>
        have hlast : is_last_datagram (128 + 0) = true := is_last_of_add (by omega)
        have hidx : get_datagram_index (128 + 0) = 0 := index_of_add (by omega)
        have hple : ¬ (p.length < psize) := by simp at hsize; omega
        simp [submit_fragments, get_complete_payload, mkFragHeader, hlast,
          hidx, hple]
    | p :: q :: rest =>
        have hlen128 : (p :: q :: rest).length ≤ 128 := by
          rcases hn with h | h | h <;>
            simp only [List.length_cons] at h ⊢ <;> omega
        have hstep : handle_partial_datagram st (mkFragHeader sc cid 0 psize) p =
            ⟨ainsert st.partial_datagrams (sc, cid) ([p].map some)⟩ := by
          simp [handle_partial_datagram, mkFragHeader, get_datagram_index,
            habs, extendTo]
        have hf : (([p] : List (List Nat)).flatten ++ (q :: rest).flatten) =
            (p :: q :: rest).flatten := by simp
        rw [submit_fragments, hstep, show (0 + 1 : Nat) = [p].length from rfl,
          ← hf]
        exact submit_fragments_go sc cid psize (q :: rest) [p] st (by simp)
          (by simp) (by simp at hlen128 ⊢; omega) habs
          (by rw [hf]; simpa using hsize)
  exact ⟨hmain, by rw [hmain]; exact habs⟩

/-- Witness for C1: two fragments [1] and [2, 3] for key (9, 2) with declared
payload size 3 reassemble to [1, 2, 3] and leave the tracker empty. -/
theorem C1_fragment_reassembly_witness :
    submit_fragments 9 2 3 0 [[1], [2, 3]] ⟨[]⟩ = (.ok [1, 2, 3], ⟨[]⟩) ∧
    alookup (submit_fragments 9 2 3 0 [[1], [2, 3]] ⟨[]⟩).2.partial_datagrams
      (9, 2) = none := by
  have := C1_fragment_reassembly 9 2 3 [[1], [2, 3]] ⟨[]⟩
    (Or.inr (Or.inl rfl)) rfl (by simp)
  simpa using this

/-- C2: the staleness-eviction requirement fails on the code. The receive
loop never invokes `_cleanup_old_partial_datagrams` (and never records
`partial_datagram_times`), so an incomplete 2-fragment entry survives any
amount of further loop activity — `receive_step` does not even depend on
time. First conjunct: after the first fragment of a 2-fragment message for
key (7, 3) and four further datagrams (a complete single-fragment message,
another 2-fragment message that does complete, and a malformed datagram),
the entry for (7, 3) is still present. Second conjunct: the defined but
never-invoked cleanup routine would have evicted it at any time past the
1-second window. -/
theorem C2_stale_entry_never_evicted :
    alookup c2_final_state.partial_datagrams (7, 3) = some [some [1, 2]] ∧
    alookup (cleanup_old_partial_datagrams c2_final_state [] 100).partial_datagrams
      (7, 3) = none := by
  constructor
  · rfl
  · rfl

/-- C4: completion is delivered only on a final-bit datagram that passes the
completeness check. First conjunct: a receive-loop iteration on a datagram
whose header parses with the final bit clear stores the fragment and
delivers nothing, whatever the tracker state and arrival order. Second
conjunct: a final-bit datagram whose key has an entry still missing a slot
at or below the final index raises the "Incomplete datagram sequence"
datagram error, delivers no payload, and leaves the entry (with the final
fragment stored at its index) in the tracker. -/
theorem C4_completion_only_on_valid_final :
    (∀ (st : TrackerSt) (data : List Nat) (h : MVNHeader) (c : Nat),
        parse_header data = .ok (h, c) →
        is_last_datagram h.datagram_counter = false →
        (receive_step st data).2 = none) ∧
    (∀ (st : TrackerSt) (h : MVNHeader) (payload : List Nat)
        (cur : List (Option (List Nat))),
        is_last_datagram h.datagram_counter = true →
        1 ≤ get_datagram_index h.datagram_counter →
        alookup st.partial_datagrams (h.sample_counter, h.character_id) =
          some cur →
        none ∈ ((extendTo cur (get_datagram_index h.datagram_counter)).set
            (get_datagram_index h.datagram_counter) (some payload)).take
            (get_datagram_index h.datagram_counter + 1) →
        get_complete_payload st h payload =
          (.error (.datagramError "Incomplete datagram sequence"
              h.datagram_counter h.sample_counter),
            ⟨ainsert st.partial_datagrams (h.sample_counter, h.character_id)
              ((extendTo cur (get_datagram_index h.datagram_counter)).set
                (get_datagram_index h.datagram_counter) (some payload))⟩) ∧
        alookup (get_complete_payload st h payload).2.partial_datagrams
            (h.sample_counter, h.character_id) =
          some ((extendTo cur (get_datagram_index h.datagram_counter)).set
            (get_datagram_index h.datagram_counter) (some payload))) := by
  constructor
  · intro st data h c hparse hnotlast
    simp [receive_step, hparse, hnotlast]
  · intro st h payload cur hlast hidx hcur hmem
    have hne0 : (get_datagram_index h.datagram_counter == 0) = false := by
      rw [beq_eq_false_iff_ne]; omega
    have hmain : get_complete_payload st h payload =
        (.error (.datagramError "Incomplete datagram sequence"
            h.datagram_counter h.sample_counter),
          ⟨ainsert st.partial_datagrams (h.sample_counter, h.character_id)
            ((extendTo cur (get_datagram_index h.datagram_counter)).set
              (get_datagram_index h.datagram_counter) (some payload))⟩) := by
      simp only [get_complete_payload, hlast, hne0, Bool.true_and,
        Bool.false_eq_true, if_false, hcur, hmem, if_true]
    exact ⟨hmain, by rw [hmain]; exact alookup_ainsert_self _ _ _⟩

/-- Witness for C4: fragment 1 (non-final) for a fresh key yields no
completion, and a final fragment of index 2 for a key holding only
fragment 0 fails with the incomplete-sequence error while its entry
(now holding slots 0 and 2) stays in the tracker. -/
theorem C4_completion_only_on_valid_final_witness :
    (receive_step ⟨[]⟩ (encode_header (mkFragHeader 5 1 1 0) ++ [7, 7])).2 =
      none ∧
    (get_complete_payload ⟨[((5, 1), [some [7]])]⟩ (mkFragHeader 5 1 130 4)
        [8] =
      (.error (.datagramError "Incomplete datagram sequence" 130 5),
        ⟨[((5, 1), [some [7], none, some [8]])]⟩) ∧
      alookup (get_complete_payload ⟨[((5, 1), [some [7]])]⟩
          (mkFragHeader 5 1 130 4) [8]).2.partial_datagrams (5, 1) =
        some [some [7], none, some [8]]) := by
  constructor
  · exact C4_completion_only_on_valid_final.1 ⟨[]⟩
      (encode_header (mkFragHeader 5 1 1 0) ++ [7, 7]) (mkFragHeader 5 1 1 0)
      24 (by rfl) (by decide)
  · exact C4_completion_only_on_valid_final.2 ⟨[((5, 1), [some [7]])]⟩
      (mkFragHeader 5 1 130 4) [8] [some [7]] (by decide) (by decide)
      (by decide) (by decide)

/-- C10: a final-bit datagram of fragment index 0 is handled entirely by the
single-fragment path: the tracker state is returned unchanged, the result
depends only on the payload and the header's declared size (the pre-existing
entry for the same key is never consulted), the entry is still present
afterwards, and only `stop()`'s clearing of per-key state removes it. -/
theorem C10_single_fragment_ignores_entry (st : TrackerSt) (h : MVNHeader)
    (payload : List Nat) (e : List (Option (List Nat)))
    (hlast : is_last_datagram h.datagram_counter = true)
    (hidx : get_datagram_index h.datagram_counter = 0)
    (hentry : alookup st.partial_datagrams (h.sample_counter, h.character_id) =
      some e) :
    (get_complete_payload st h payload).2 = st ∧
    (get_complete_payload st h payload).1 =
      (if payload.length < h.payload_size then
        .error (.datagramError "Payload size mismatch" h.datagram_counter
          h.sample_counter)
      else .ok payload) ∧
    alookup (get_complete_payload st h payload).2.partial_datagrams
        (h.sample_counter, h.character_id) = some e ∧
    (stop_clear_tracker st).partial_datagrams = [] := by
  have hcond : (is_last_datagram h.datagram_counter &&
      (get_datagram_index h.datagram_counter == 0)) = true := by
    rw [hlast, hidx]; rfl
  have h2 : (get_complete_payload st h payload).2 = st := by
    simp only [get_complete_payload, hcond, if_true]
    split <;> rfl
  refine ⟨h2, ?_, by rw [h2]; exact hentry, rfl⟩
  simp only [get_complete_payload, hcond, if_true]
  split <;> simp_all

/-- Witness for C10: a single-fragment datagram for key (4, 2) whose tracker
already holds an entry for that key returns the payload, leaves the state
(and the entry) unchanged, and the stop-clear empties the tracker. -/
theorem C10_single_fragment_ignores_entry_witness :
    (get_complete_payload ⟨[((4, 2), [some [3]])]⟩ (mkFragHeader 4 2 128 1)
        [9]).2 = ⟨[((4, 2), [some [3]])]⟩ ∧
    (get_complete_payload ⟨[((4, 2), [some [3]])]⟩ (mkFragHeader 4 2 128 1)
        [9]).1 =
      (if ([9] : List Nat).length < (mkFragHeader 4 2 128 1).payload_size then
        .error (.datagramError "Payload size mismatch" 128 4)
      else .ok [9]) ∧
    alookup (get_complete_payload ⟨[((4, 2), [some [3]])]⟩
        (mkFragHeader 4 2 128 1) [9]).2.partial_datagrams (4, 2) =
      some [some [3]] ∧
    (stop_clear_tracker ⟨[((4, 2), [some [3]])]⟩).partial_datagrams = [] := by
  exact C10_single_fragment_ignores_entry ⟨[((4, 2), [some [3]])]⟩
    (mkFragHeader 4 2 128 1) [9] [some [3]] (by decide) (by decide) (by decide)

theorem list_len6 {α : Type} (l : List α) (h : l.length = 6) :
    ∃ a b c d e f, l = [a, b, c, d, e, f] := by
  rcases l with _ | ⟨a, _ | ⟨b, _ | ⟨c, _ | ⟨d, _ | ⟨e, _ | ⟨f, _ | ⟨g, t⟩⟩⟩⟩⟩⟩⟩ <;>
    first
      | exact ⟨a, b, c, d, e, f, rfl⟩
      | (exfalso; simp only [List.length_cons, List.length_nil] at h; omega)

/-- C3: the header codec. For every buffer of at least 24 bytes whose first
six bytes are ASCII: if the first four bytes are the protocol identifier
`MXTP`, `parse_header` succeeds, consumes exactly 24 bytes, and every field
equals the big-endian value at its wire offset (id string bytes 0-5, sample
counter u32 at 6-9, fragment-control byte 10, item count byte 11, time code
u32 at 12-15, character id byte 16, segment/prop/finger counts bytes 17-19,
payload size u16 at 22-23); if they are not, parsing fails with a protocol
error. Consequently encoding any wellformed header's 24 bytes and decoding
reproduces every field exactly. -/
theorem C3_header_roundtrip (data : List Nat) (h : MVNHeader)
    (hlen : 24 ≤ data.length)
    (hascii : ∀ b ∈ data.take 6, b < 128)
    (hwf : h.wellformed) :
    (data.take 4 = mxtpBytes →
      parse_header data = .ok ({
        id_string := data.take 6,
        sample_counter := ((data.getD 6 0 * 256 + data.getD 7 0) * 256 +
          data.getD 8 0) * 256 + data.getD 9 0,
        datagram_counter := data.getD 10 0,
        num_items := data.getD 11 0,
        time_code := ((data.getD 12 0 * 256 + data.getD 13 0) * 256 +
          data.getD 14 0) * 256 + data.getD 15 0,
        character_id := data.getD 16 0,
        num_segments := data.getD 17 0,
        num_props := data.getD 18 0,
        num_fingers := data.getD 19 0,
        payload_size := data.getD 22 0 * 256 + data.getD 23 0 }, 24)) ∧
    (data.take 4 ≠ mxtpBytes →
      parse_header data = .error (.protocolError "MVN")) ∧
    parse_header (encode_header h) = .ok (h, 24) := by
  have hasciiB : ((data.take 6).all fun b => decide (b < 128)) = true := by
    simp only [List.all_eq_true, decide_eq_true_eq]
    exact hascii
  refine ⟨?_, ?_, ?_⟩
  · intro hmx
    simp only [parse_header, hasciiB, hmx, Bool.not_true, Nat.not_lt.2 hlen,
      if_false, ne_eq, not_true_eq_false, Bool.false_eq_true]
    simp only [readBE, Nat.zero_mul, Nat.zero_add, if_neg (by omega : ¬ data.length < 24)]
  · intro hmx
    simp only [parse_header, hasciiB, Bool.not_true, ne_eq, hmx,
      not_false_eq_true, if_true, Bool.false_eq_true, if_false,
      if_neg (by omega : ¬ data.length < 24)]
  · obtain ⟨ids, sc, dc, ni, tc, ci, ns, np, nf, pz⟩ := h
    obtain ⟨hl6, hascii6, hpfx, hsc, hdc, hni, htc, hci, hns, hnp, hnf, hpz⟩ :=
      hwf
    obtain ⟨i0, i1, i2, i3, i4, i5, rfl⟩ := list_len6 ids hl6
    simp only [List.take, List.cons.injEq, mxtpBytes, and_true] at hpfx
    obtain ⟨rfl, rfl, rfl, rfl⟩ := hpfx
    have h4 : i4 < 128 := hascii6 i4 (by simp)
    have h5 : i5 < 128 := hascii6 i5 (by simp)
    simp only [encode_header, beBytes4, beBytes2, parse_header, List.cons_append,
      List.nil_append, List.length_cons, List.length_nil, List.take, List.getD,
      List.all, readBE, List.get?, Bool.and_eq_true, decide_eq_true_eq]
    norm_num [h4, h5, mxtpBytes]
    simp only at hsc htc hpz
    omega

/-- Witness for C3: a concrete 24-byte buffer with id "MXTP02" decodes with
all-zero fields; a buffer with id "ABCDEF" fails with a protocol error; a
concrete wellformed header round-trips through encode and decode. -/
theorem C3_header_roundtrip_witness :
    parse_header (strBytes "MXTP02" ++ List.replicate 18 0) =
      .ok (⟨strBytes "MXTP02", 0, 0, 0, 0, 0, 0, 0, 0, 0⟩, 24) ∧
    parse_header (strBytes "ABCDEF" ++ List.replicate 18 0) =
      .error (.protocolError "MVN") ∧
    parse_header (encode_header ⟨strBytes "MXTP02", 70000, 129, 3, 42, 5, 23,
        1, 40, 999⟩) =
      .ok (⟨strBytes "MXTP02", 70000, 129, 3, 42, 5, 23, 1, 40, 999⟩, 24) := by
  refine ⟨?_, ?_, ?_⟩
  · exact (C3_header_roundtrip (strBytes "MXTP02" ++ List.replicate 18 0)
      ⟨strBytes "MXTP02", 0, 0, 0, 0, 0, 0, 0, 0, 0⟩ (by decide) (by decide)
      (by decide)).1 (by decide)
  · exact (C3_header_roundtrip (strBytes "ABCDEF" ++ List.replicate 18 0)
      ⟨strBytes "MXTP02", 0, 0, 0, 0, 0, 0, 0, 0, 0⟩ (by decide) (by decide)
      (by decide)).2.1 (by decide)
  · exact (C3_header_roundtrip (strBytes "MXTP02" ++ List.replicate 18 0)
      ⟨strBytes "MXTP02", 70000, 129, 3, 42, 5, 23, 1, 40, 999⟩ (by decide)
      (by decide) (by decide)).2.2

/-- C8 counterexample: on a 24-byte buffer whose ASCII id string "ABCDEF"
does not start with the protocol identifier, `parse_header` fails with a
protocol error — not with a parse error of kind "header" as the claim
states for the identifier-mismatch case. -/
theorem C8_counterexample :
    parse_header (strBytes "ABCDEF" ++ List.replicate 18 0) =
      .error (.protocolError "MVN") ∧
    MVNErr.protocolError "MVN" ≠ MVNErr.parseError "header" none ∧
    MVNErr.protocolError "MVN" ≠ MVNErr.parseError "header" (some 0) := by
  refine ⟨by rfl, by simp, by simp⟩

/-- C8 (amended): `parse_header` fails exactly on truncation, on a non-ASCII
id string, and on protocol-identifier mismatch; truncation and non-ASCII id
give a parse error of kind "header" (position 0 for truncation, none for the
decode failure), while identifier mismatch gives a protocol error; on every
other input it succeeds consuming 24 bytes. The decode is a pure function of
the buffer by construction. -/
theorem C8_header_error_cases (data : List Nat) :
    (data.length < 24 →
      parse_header data = .error (.parseError "header" (some 0))) ∧
    (24 ≤ data.length → ¬ (∀ b ∈ data.take 6, b < 128) →
      parse_header data = .error (.parseError "header" none)) ∧
    (24 ≤ data.length → (∀ b ∈ data.take 6, b < 128) →
      data.take 4 ≠ mxtpBytes →
      parse_header data = .error (.protocolError "MVN")) ∧
    (24 ≤ data.length → (∀ b ∈ data.take 6, b < 128) →
      data.take 4 = mxtpBytes →
      ∃ h, parse_header data = .ok (h, 24)) := by
  refine ⟨?_, ?_, ?_, ?_⟩
  · intro hlt
    simp only [parse_header, if_pos hlt]
  · intro hlen hnot
    have hb : ((data.take 6).all fun b => decide (b < 128)) = false := by
      rw [← Bool.not_eq_true]
      simp only [List.all_eq_true, decide_eq_true_eq]
      exact hnot
    simp only [parse_header, if_neg (by omega : ¬ data.length < 24), hb,
      Bool.not_false, if_true]
  · intro hlen hascii hne
    have hb : ((data.take 6).all fun b => decide (b < 128)) = true := by
      simp only [List.all_eq_true, decide_eq_true_eq]
      exact hascii
    simp only [parse_header, if_neg (by omega : ¬ data.length < 24), hb,
      Bool.not_true, Bool.false_eq_true, if_false, if_pos hne]
  · intro hlen hascii heq
    have hb : ((data.take 6).all fun b => decide (b < 128)) = true := by
      simp only [List.all_eq_true, decide_eq_true_eq]
      exact hascii
    refine ⟨⟨data.take 6, readBE data 6 4, data.getD 10 0, data.getD 11 0,
      readBE data 12 4, data.getD 16 0, data.getD 17 0, data.getD 18 0,
      data.getD 19 0, readBE data 22 2⟩, ?_⟩
    simp only [parse_header, if_neg (by omega : ¬ data.length < 24), hb,
      Bool.not_true, Bool.false_eq_true, if_false, heq, ne_eq,
      not_true_eq_false]

/-- Witness for C8 (amended): concrete buffers hitting each of the four
cases — truncation, non-ASCII id, identifier mismatch, success. -/
theorem C8_header_error_cases_witness :
    parse_header [77, 88, 84] = .error (.parseError "header" (some 0)) ∧
    parse_header (strBytes "MXTP" ++ [200, 200] ++ List.replicate 18 0) =
      .error (.parseError "header" none) ∧
    parse_header (strBytes "ABCDEF" ++ List.replicate 18 0) =
      .error (.protocolError "MVN") ∧
    ∃ h, parse_header (strBytes "MXTP02" ++ List.replicate 18 0) =
      .ok (h, 24) := by
  refine ⟨(C8_header_error_cases [77, 88, 84]).1 (by decide),
    (C8_header_error_cases _).2.1 (by decide) (by decide),
    (C8_header_error_cases _).2.2.1 (by decide) (by decide) (by decide),
    (C8_header_error_cases _).2.2.2 (by decide) (by decide) (by decide)⟩

/-- C6 counterexample: dispatch does not deliver the header. In callback
mode the source invokes the handler as `self.callback(msg_type, data)`, so a
three-parameter handler receives `header = None` rather than the actual
header, and in queue mode the queued entry is the bare pair
`(msg_type, data)`. -/
theorem C6_counterexample :
    (handle_parsed_data true ([] : List (String × Nat)) 10 "02" 5
        (mkFragHeader 1 1 128 0)).2 = some ("02", 5, none) ∧
    some (("02", 5, none) : String × Nat × Option MVNHeader) ≠
      some ("02", 5, some (mkFragHeader 1 1 128 0)) ∧
    (handle_parsed_data false ([] : List (String × Nat)) 10 "02" 5
        (mkFragHeader 1 1 128 0)).1 = [("02", 5)] := by
  refine ⟨rfl, by simp, rfl⟩

/-- C6 (amended): for every decoded message, dispatch delivers the pair
(message-kind code, decoded payload) and not the header: in callback mode
the handler is invoked inline with (kind, payload) — a three-parameter
handler sees None for the header — and the queue is untouched; in queue
mode nothing is invoked, the queued entry is that same (kind, payload)
pair appended last, and the queue length never exceeds its capacity (or
its previous length plus one when the capacity is unlimited). -/
theorem C6_dispatch_delivers_pair {α : Type} (q : List (String × α))
    (maxsize : Nat) (msg_type : String) (data : α) (header : MVNHeader) :
    handle_parsed_data true q maxsize msg_type data header =
      (q, some (msg_type, data, none)) ∧
    (handle_parsed_data false q maxsize msg_type data header).2 = none ∧
    (handle_parsed_data false q maxsize msg_type data header).1.getLast? =
      some (msg_type, data) := by
  refine ⟨rfl, rfl, ?_⟩
  simp [handle_parsed_data]

theorem alookup_none_of_keys_lt {α : Type} (l : List (Nat × α))
    (bound id : Nat) (hb : ∀ p ∈ l, p.1 < bound) (h : bound ≤ id) :
    alookup l id = none := by
  induction l with
  | nil => rfl
  | cons p t ih =>
      obtain ⟨k, v⟩ := p
      have hk : k < bound := hb (k, v) (by simp)
      simp only [alookup, if_neg (by omega : ¬ id = k)]
      exact ih fun q hq => hb q (by simp [hq])

theorem SEGMENT_NAMES_keys_lt : ∀ p ∈ SEGMENT_NAMES, p.1 < 67 := by decide

theorem UNITY3D_keys_lt : ∀ p ∈ UNITY3D_SEGMENT_NAMES, p.1 < 23 := by decide

theorem readBE_beBytes4 (id : Nat) (rest : List Nat) (h : id < 4294967296) :
    readBE (beBytes4 id ++ rest) 0 4 = id := by
  simp only [readBE, beBytes4, List.cons_append, List.nil_append,
    List.getD_cons_zero, List.getD_cons_succ, Nat.zero_add, Nat.zero_mul]
  omega

/-- C5: named-segment decoders reject unknown ids with a segment error
naming the id; tracker kinematics accepts every 32-bit id. For every 32-bit
id at the head of a record with enough bytes: if the id is outside all
known ranges (every table key and finger id is below 67), the Euler-pose,
quaternion-pose, Unity-pose, linear-kinematics and angular-kinematics
decoders fail with a segment error carrying that id; the
tracker-kinematics decoder always succeeds, keying the record by the
resolved tracker name, which for an id with no table entry is the
synthetic `Tracker_<id>`. -/
theorem C5_unknown_segment_ids (id : Nat) (rest : List Nat) (n : Nat)
    (hid32 : id < 4294967296) (hrest : 40 ≤ rest.length) :
    (67 ≤ id →
      parse_pose_euler (beBytes4 id ++ rest) (n + 1) =
        .error (.segmentError "Invalid segment ID" id) ∧
      parse_pose_quaternion (beBytes4 id ++ rest) (n + 1) =
        .error (.segmentError "Invalid segment ID" id) ∧
      parse_unity3d_data (beBytes4 id ++ rest) (n + 1) =
        .error (.segmentError "Invalid Unity3D segment ID" id) ∧
      parse_linear_kinematics (beBytes4 id ++ rest) (n + 1) =
        .error (.segmentError "Invalid segment ID" id) ∧
      parse_angular_kinematics (beBytes4 id ++ rest) (n + 1) =
        .error (.segmentError "Invalid segment ID" id)) ∧
    (parse_tracker_kinematics (beBytes4 id ++ rest) 1).map
      (List.map Prod.fst) = .ok [resolve_tracker_segment_name id] ∧
    (67 ≤ id →
      resolve_tracker_segment_name id = "Tracker_" ++ toString id) := by
  have hlen : (beBytes4 id ++ rest).length = 4 + rest.length := by
    simp [beBytes4]
    omega
  have hrid := readBE_beBytes4 id rest hid32
  refine ⟨?_, ?_, ?_⟩
  · intro hid
    have hSEG : alookup SEGMENT_NAMES id = none :=
      alookup_none_of_keys_lt _ 67 id SEGMENT_NAMES_keys_lt hid
    have hUNI : alookup UNITY3D_SEGMENT_NAMES id = none :=
      alookup_none_of_keys_lt _ 23 id UNITY3D_keys_lt (by omega)
    have hfing : is_finger_segment id = false := by
      simp only [is_finger_segment, Bool.or_eq_false_iff,
        Bool.and_eq_false_iff, decide_eq_false_iff_not]
      omega
    refine ⟨?_, ?_, ?_, ?_, ?_⟩
    · simp only [parse_pose_euler, parse_pose_euler_go, hlen,
        if_neg (by omega : ¬ 4 + rest.length - 0 < 28), hrid, hSEG, hfing,
        Option.isNone_none, Bool.not_false, Bool.and_self, if_true]
    · simp only [parse_pose_quaternion, parse_pose_quaternion_go, hlen,
        if_neg (by omega : ¬ 4 + rest.length - 0 < 32), hrid, hSEG, hfing,
        Option.isNone_none, Bool.not_false, Bool.and_self, if_true]
    · simp only [parse_unity3d_data, parse_unity3d_data_go, hlen,
        if_neg (by omega : ¬ 4 + rest.length - 0 < 32), hrid, hUNI,
        Option.isNone_none, if_true]
    · simp only [parse_linear_kinematics, parse_linear_kinematics_go, hlen,
        if_neg (by omega : ¬ 4 + rest.length - 0 < 40), hrid, hSEG,
        Option.isNone_none, if_true]
    · simp only [parse_angular_kinematics, parse_angular_kinematics_go, hlen,
        if_neg (by omega : ¬ 4 + rest.length - 0 < 44), hrid, hSEG,
        Option.isNone_none, if_true]
  · simp only [parse_tracker_kinematics, parse_tracker_kinematics_go, hlen,
      if_neg (by omega : ¬ 4 + rest.length - 0 < 44), hrid]
    rfl
  · intro hid
    have hSEG : alookup SEGMENT_NAMES id = none :=
      alookup_none_of_keys_lt _ 67 id SEGMENT_NAMES_keys_lt hid
    simp [resolve_tracker_segment_name, hSEG]

/-- Witness for C5: id 999 (outside all known ranges) in a fully-populated
record: the five named-segment decoders fail with a segment error naming
999; the tracker decoder succeeds with the synthetic key "Tracker_999". -/
theorem C5_unknown_segment_ids_witness :
    parse_pose_euler (beBytes4 999 ++ List.replicate 40 0) 1 =
      .error (.segmentError "Invalid segment ID" 999) ∧
    parse_pose_quaternion (beBytes4 999 ++ List.replicate 40 0) 1 =
      .error (.segmentError "Invalid segment ID" 999) ∧
    parse_unity3d_data (beBytes4 999 ++ List.replicate 40 0) 1 =
      .error (.segmentError "Invalid Unity3D segment ID" 999) ∧
    parse_linear_kinematics (beBytes4 999 ++ List.replicate 40 0) 1 =
      .error (.segmentError "Invalid segment ID" 999) ∧
    parse_angular_kinematics (beBytes4 999 ++ List.replicate 40 0) 1 =
      .error (.segmentError "Invalid segment ID" 999) ∧
    (parse_tracker_kinematics (beBytes4 999 ++ List.replicate 40 0) 1).map
      (List.map Prod.fst) = .ok ["Tracker_999"] := by
  have h := C5_unknown_segment_ids 999 (List.replicate 40 0) 0 (by decide)
    (by decide)
  obtain ⟨h1, h2, h3⟩ := h
  obtain ⟨he, hq, hu, hl, ha⟩ := h1 (by decide)
  exact ⟨he, hq, hu, hl, ha, by rw [h2, h3 (by decide)]; rfl⟩

theorem map_fst_ainsert {κ α : Type} [DecidableEq κ] (g : α → κ)
    (m : List (κ × α)) (k : κ) (v : α)
    (hm : m.map Prod.fst = m.map fun p => g p.2) (hk : g v = k) :
    (ainsert m k v).map Prod.fst = (ainsert m k v).map fun p => g p.2 := by
  induction m with
  | nil => simp [ainsert, hk]
  | cons p t ih =>
      obtain ⟨k', w⟩ := p
      simp only [List.map_cons, List.cons.injEq] at hm
      obtain ⟨h1, h2⟩ := hm
      subst h1
      by_cases hkk : g w = k
      · simp [ainsert, hkk, hk, h2]
      · simp only [ainsert, if_neg hkk, List.map_cons, ih h2]

theorem parse_pose_euler_go_keys (data : List Nat) :
    ∀ (n offset : Nat) (acc : List (String × MVNSegment)),
      acc.map Prod.fst = acc.map (fun p => resolve_body_segment_name p.2.id) →
      (parse_pose_euler_go data n offset acc).map (List.map Prod.fst) =
        (parse_pose_euler_go data n offset acc).map
          (List.map fun p => resolve_body_segment_name p.2.id) := by
  intro n
  induction n with
  | zero => intro offset acc hacc; simp [parse_pose_euler_go, Except.map, hacc]
  | succ n ih =>
      intro offset acc hacc
      simp only [parse_pose_euler_go]
      split
      · rfl
      · split
        · rfl
        · refine ih _ _ (map_fst_ainsert
            (fun s => resolve_body_segment_name s.id) acc _ _ hacc ?_)
          rfl

theorem parse_pose_quaternion_go_keys (data : List Nat) :
    ∀ (n offset : Nat) (acc : List (String × MVNSegment)),
      acc.map Prod.fst = acc.map (fun p => resolve_body_segment_name p.2.id) →
      (parse_pose_quaternion_go data n offset acc).map (List.map Prod.fst) =
        (parse_pose_quaternion_go data n offset acc).map
          (List.map fun p => resolve_body_segment_name p.2.id) := by
  intro n
  induction n with
  | zero => intro offset acc hacc; simp [parse_pose_quaternion_go, Except.map, hacc]
  | succ n ih =>
      intro offset acc hacc
      simp only [parse_pose_quaternion_go]
      split
      · rfl
      · split
        · rfl
        · refine ih _ _ (map_fst_ainsert
            (fun s => resolve_body_segment_name s.id) acc _ _ hacc ?_)
          rfl

theorem parse_unity3d_data_go_keys (data : List Nat) :
    ∀ (n offset : Nat) (acc : List (String × MVNSegment)),
      acc.map Prod.fst = acc.map (fun p => resolve_unity_segment_name p.2.id) →
      (parse_unity3d_data_go data n offset acc).map (List.map Prod.fst) =
        (parse_unity3d_data_go data n offset acc).map
          (List.map fun p => resolve_unity_segment_name p.2.id) := by
  intro n
  induction n with
  | zero => intro offset acc hacc; simp [parse_unity3d_data_go, Except.map, hacc]
  | succ n ih =>
      intro offset acc hacc
      simp only [parse_unity3d_data_go]
      split
      · rfl
      · split
        · rfl
        · refine ih _ _ (map_fst_ainsert
            (fun s => resolve_unity_segment_name s.id) acc _ _ hacc ?_)
          rfl

theorem parse_linear_kinematics_go_keys (data : List Nat) :
    ∀ (n offset : Nat) (acc : List (String × LinearKinematics)),
      acc.map Prod.fst =
        acc.map (fun p => resolve_table_segment_name p.2.segment_id) →
      (parse_linear_kinematics_go data n offset acc).map (List.map Prod.fst) =
        (parse_linear_kinematics_go data n offset acc).map
          (List.map fun p => resolve_table_segment_name p.2.segment_id) := by
  intro n
  induction n with
  | zero => intro offset acc hacc; simp [parse_linear_kinematics_go, Except.map, hacc]
  | succ n ih =>
      intro offset acc hacc
      simp only [parse_linear_kinematics_go]
      split
      · rfl
      · split
        · rfl
        · refine ih _ _ (map_fst_ainsert
            (fun s => resolve_table_segment_name s.segment_id) acc _ _ hacc
            ?_)
          rfl

theorem parse_angular_kinematics_go_keys (data : List Nat) :
    ∀ (n offset : Nat) (acc : List (String × AngularKinematics)),
      acc.map Prod.fst =
        acc.map (fun p => resolve_table_segment_name p.2.segment_id) →
      (parse_angular_kinematics_go data n offset acc).map (List.map Prod.fst) =
        (parse_angular_kinematics_go data n offset acc).map
          (List.map fun p => resolve_table_segment_name p.2.segment_id) := by
  intro n
  induction n with
  | zero => intro offset acc hacc; simp [parse_angular_kinematics_go, Except.map, hacc]
  | succ n ih =>
      intro offset acc hacc
      simp only [parse_angular_kinematics_go]
      split
      · rfl
      · split
        · rfl
        · refine ih _ _ (map_fst_ainsert
            (fun s => resolve_table_segment_name s.segment_id) acc _ _ hacc
            ?_)
          rfl

theorem parse_tracker_kinematics_go_keys (data : List Nat) :
    ∀ (n offset : Nat) (acc : List (String × TrackerKinematics)),
      acc.map Prod.fst =
        acc.map (fun p => resolve_tracker_segment_name p.2.segment_id) →
      (parse_tracker_kinematics_go data n offset acc).map (List.map Prod.fst) =
        (parse_tracker_kinematics_go data n offset acc).map
          (List.map fun p => resolve_tracker_segment_name p.2.segment_id) := by
  intro n
  induction n with
  | zero => intro offset acc hacc; simp [parse_tracker_kinematics_go, Except.map, hacc]
  | succ n ih =>
      intro offset acc hacc
      simp only [parse_tracker_kinematics_go]
      split
      · rfl
      · refine ih _ _ (map_fst_ainsert
          (fun s => resolve_tracker_segment_name s.segment_id) acc _ _ hacc
          ?_)
        rfl

theorem parse_point_data_go_keys (data : List Nat) :
    ∀ (n offset : Nat) (acc : List (Nat × MVNPoint)),
      acc.map Prod.fst = acc.map (fun p => p.2.id) →
      (parse_point_data_go data n offset acc).map (List.map Prod.fst) =
        (parse_point_data_go data n offset acc).map
          (List.map fun p => p.2.id) := by
  intro n
  induction n with
  | zero => intro offset acc hacc; simp [parse_point_data_go, Except.map, hacc]
  | succ n ih =>
      intro offset acc hacc
      simp only [parse_point_data_go]
      split
      · rfl
      · refine ih _ _ (map_fst_ainsert (fun s => MVNPoint.id s) acc _ _ hacc
          ?_)
        rfl

/-- C9 counterexample: `parse_point_data` keys its result by the numeric
point id, not by a resolved segment-name string: a one-record payload with
point id 3 yields the map [(3, record)] whose key is the number 3 (id 3
would resolve to the name "T12" in the segment table). -/
theorem C9_counterexample :
    parse_point_data (beBytes4 3 ++ List.replicate 12 0) 1 =
      .ok [(3, ⟨3, ⟨0, 0, 0⟩, 0⟩)] ∧
    alookup SEGMENT_NAMES 3 = some "T12" := by
  constructor
  · rfl
  · rfl

/-- C9 (amended): every map-variant decode result except point positions is
keyed by the resolved segment name (a string): for every payload and item
count, each key of an Euler-pose, quaternion-pose, Unity-pose,
linear-kinematics, angular-kinematics or tracker-kinematics result equals
the kind-appropriate resolved name of that entry's segment id; the
point-position map is instead keyed by the entry's numeric point id. -/
theorem C9_map_keys (data : List Nat) (n : Nat) :
    (parse_pose_euler data n).map (List.map Prod.fst) =
      (parse_pose_euler data n).map
        (List.map fun p => resolve_body_segment_name p.2.id) ∧
    (parse_pose_quaternion data n).map (List.map Prod.fst) =
      (parse_pose_quaternion data n).map
        (List.map fun p => resolve_body_segment_name p.2.id) ∧
    (parse_unity3d_data data n).map (List.map Prod.fst) =
      (parse_unity3d_data data n).map
        (List.map fun p => resolve_unity_segment_name p.2.id) ∧
    (parse_linear_kinematics data n).map (List.map Prod.fst) =
      (parse_linear_kinematics data n).map
        (List.map fun p => resolve_table_segment_name p.2.segment_id) ∧
    (parse_angular_kinematics data n).map (List.map Prod.fst) =
      (parse_angular_kinematics data n).map
        (List.map fun p => resolve_table_segment_name p.2.segment_id) ∧
    (parse_tracker_kinematics data n).map (List.map Prod.fst) =
      (parse_tracker_kinematics data n).map
        (List.map fun p => resolve_tracker_segment_name p.2.segment_id) ∧
    (parse_point_data data n).map (List.map Prod.fst) =
      (parse_point_data data n).map (List.map fun p => p.2.id) :=
  ⟨parse_pose_euler_go_keys data n 0 [] rfl,
   parse_pose_quaternion_go_keys data n 0 [] rfl,
   parse_unity3d_data_go_keys data n 0 [] rfl,
   parse_linear_kinematics_go_keys data n 0 [] rfl,
   parse_angular_kinematics_go_keys data n 0 [] rfl,
   parse_tracker_kinematics_go_keys data n 0 [] rfl,
   parse_point_data_go_keys data n 0 [] rfl⟩

theorem tc_window_match_head_false (b : Nat) (w : List Nat) (hb : 128 ≤ b) :
    tc_window_match (b :: w) = false := by
  have : ¬ b < 128 := by omega
  simp [tc_window_match, this]

theorem tc_scan_skip_pad :
    ∀ (pad s : List Nat), (∀ b ∈ pad, 128 ≤ b) → 8 ≤ s.length →
      tc_window_match (s.take 8) = true → tc_scan (pad ++ s) = some s := by
  intro pad
  induction pad with
  | nil =>
      intro s hpad hs hw
      match s, hs with
      | b :: rest, hs =>
          simp only [List.nil_append, tc_scan, if_neg (by omega : ¬ (b :: rest).length < 8), hw,
            if_true]
  | cons b pad' ih =>
      intro s hpad hs hw
      have hb : 128 ≤ b := hpad b (by simp)
      have hlen : ¬ (b :: (pad' ++ s)).length < 8 := by
        simp only [List.length_cons, List.length_append]
        omega
      have ht : (b :: (pad' ++ s)).take 8 = b :: (pad' ++ s).take 7 := rfl
      have hwin : tc_window_match ((b :: (pad' ++ s)).take 8) = false := by
        rw [ht]
        exact tc_window_match_head_false b _ hb
      rw [List.cons_append, tc_scan, if_neg hlen, hwin]
      simp only [Bool.false_eq_true, if_false]
      exact ih s (fun x hx => hpad x (by simp [hx])) hs hw

/-- C7 counterexample: a payload containing '12:34:56' does not always
yield '12:34:56.000' — when at least four more bytes follow the match and
one of the first twelve bytes from the match is non-ASCII, the 12-byte
decode fails and the code raises a parse error without attempting the
8-byte format. -/
theorem C7_counterexample :
    parse_time_code (strBytes "12:34:56" ++ [255, 255, 255, 255]) =
      .error (.parseError "time code" none) := by
  rfl

/-- C7 (amended): `parse_time_code` locates the first position matching the
two-digits:two-digits:two-digits pattern — leading non-ASCII padding is
skipped — and returns a TimeCode normalized to HH:MM:SS.mmm: a payload of
optional non-ASCII padding followed by exactly '12:34:56' yields
'12:34:56.000' (when at least four further bytes follow the matched
pattern, the twelve bytes from the match must decode as ASCII, otherwise a
parse error is raised instead), and one followed by '12:34:56.789' yields
'12:34:56.789'; payloads containing only '25:00:00' (hour out of range) or
only '12:34' (pattern mismatch) fail with a parse error. -/
theorem C7_time_code_parsing (pad : List Nat) (hpad : ∀ b ∈ pad, 128 ≤ b) :
    parse_time_code (pad ++ strBytes "12:34:56") =
      .ok (mkTimeCode (strBytes "12:34:56")) ∧
    mkTimeCode (strBytes "12:34:56") = ⟨strBytes "12:34:56.000"⟩ ∧
    parse_time_code (pad ++ strBytes "12:34:56.789") =
      .ok ⟨strBytes "12:34:56.789"⟩ ∧
    parse_time_code (strBytes "25:00:00") =
      .error (.parseError "time code" none) ∧
    parse_time_code (strBytes "12:34") =
      .error (.parseError "time code" none) := by
  have hscan8 : tc_scan (pad ++ strBytes "12:34:56") =
      some (strBytes "12:34:56") :=
    tc_scan_skip_pad pad _ hpad (by decide) (by decide)
  have hscan12 : tc_scan (pad ++ strBytes "12:34:56.789") =
      some (strBytes "12:34:56.789") :=
    tc_scan_skip_pad pad _ hpad (by decide) (by decide)
  refine ⟨?_, by rfl, ?_, by rfl, by rfl⟩
  · simp only [parse_time_code, hscan8]
    rfl
  · simp only [parse_time_code, hscan12]
    rfl

/-- Witness for C7 (amended): one byte of 0xFF padding before '12:34:56'
and before '12:34:56.789', plus the two rejection cases. -/
theorem C7_time_code_parsing_witness :
    parse_time_code ([255] ++ strBytes "12:34:56") =
      .ok ⟨strBytes "12:34:56.000"⟩ ∧
    parse_time_code ([255] ++ strBytes "12:34:56.789") =
      .ok ⟨strBytes "12:34:56.789"⟩ ∧
    parse_time_code (strBytes "25:00:00") =
      .error (.parseError "time code" none) ∧
    parse_time_code (strBytes "12:34") =
      .error (.parseError "time code" none) := by
  obtain ⟨h1, h2, h3, h4, h5⟩ :=
    C7_time_code_parsing [255] (by decide)
  exact ⟨by rw [h1, h2], h3, h4, h5⟩
